import Mathlib

/-!
Verification development for the testcontainers-node core: session labels,
the `GenericContainerBuilder.build` step, the container-creation request
mapping, the Reaper cleanup contract and the wait-strategy poll loop.

Label maps and other JavaScript objects are embedded as association lists
`List (String × String)` with first-match lookup; object-key assignment
(`obj[k] = v`) is embedded as `objSet`, which removes any earlier entry for
the key and appends the new one, so that lookup and key-set semantics agree
with the JavaScript object.
-/

/-- Association lists standing in for JavaScript string-keyed objects. -/
abbrev Labels := List (String × String)

/-- Embedding of the JavaScript object assignment `obj[k] = v`: any previous
entry for `k` is dropped and the pair `(k, v)` appended, so `List.lookup`
afterwards returns `v` for `k` and is unchanged on other keys. -/
def objSet (m : Labels) (k v : String) : Labels :=
  m.filter (fun kv => kv.1 ≠ k) ++ [(k, v)]

/-- Label key of the library provenance marker (`utils/labels.ts`). -/
def LABEL_TESTCONTAINERS : String := "org.testcontainers"

/-- Label key carrying the session identifier (`utils/labels.ts`). -/
def LABEL_TESTCONTAINERS_SESSION_ID : String := "org.testcontainers.session-id"

/-- Modelled from the spec: the fixed provenance label set produced by
`createLabels()` of `utils/labels.ts`, which is not among the source files.
Per §4.1 it is "a fixed provenance label" (the library marker); the session
identifier is not part of it — `createLabels()` receives no session id, the
caller (`GenericContainerBuilder.build`, lines 68–71 of the source) adds the
session label itself only when `deleteOnExit` is set, and §4.2 requires that
an opted-out resource "proceeds unlabeled-for-reaping". -/
def createLabels : Labels :=
  [(LABEL_TESTCONTAINERS, "true")]

/-- Modelled from the spec: `buildLabels(sessionId, extra?)` of §4.1 "merges a
fixed provenance label, the session id, and any caller-supplied labels, with
caller-supplied keys never able to override the two reserved keys".  The two
reserved entries are placed in front so that first-match lookup always yields
the library/session values regardless of `extra`. -/
def buildLabels (sessionId : String) (extra : Labels) : Labels :=
  (LABEL_TESTCONTAINERS, "true")
    :: (LABEL_TESTCONTAINERS_SESSION_ID, sessionId)
    :: extra.filter (fun kv =>
        kv.1 ≠ LABEL_TESTCONTAINERS ∧ kv.1 ≠ LABEL_TESTCONTAINERS_SESSION_ID)

/-- The handle returned by `GenericContainerBuilder.build` (the
`GenericContainer` constructed from the image name, line 90). -/
structure GenericContainer where
  image : String
deriving DecidableEq, Repr

/-- Outcome of `GenericContainerBuilder.build`: the label object handed to the
image build call, and the returned handle or thrown error. -/
structure BuildOutcome where
  labelsSent : Labels
  result : Except String GenericContainer
deriving Repr

namespace GenericContainerBuilder

/-- Embedding of the effect-relevant tail of `GenericContainerBuilder.build`
(`generic-container-builder.ts`, lines 56–95): the label object starts as
`createLabels()`; when `options.deleteOnExit` holds, the session-id label is
assigned (`labels[LABEL_TESTCONTAINERS_SESSION_ID] = reaper.sessionId`); the
labels are passed to the image build; a `GenericContainer` for the image name
is constructed, and if the runtime then reports the image as missing the
error "Failed to build image" is thrown instead of returning the handle.
The runtime's answer to `client.image.exists(imageName)` enters as the
`imageExists` argument, and the reaper's session id as `sessionId`. -/
def build (sessionId : String) (deleteOnExit : Bool) (imageExists : Bool)
    (imageName : String) : BuildOutcome :=
  let labels := createLabels
  let labels :=
    if deleteOnExit then objSet labels LABEL_TESTCONTAINERS_SESSION_ID sessionId
    else labels
  { labelsSent := labels
    result :=
      let container : GenericContainer := { image := imageName }
      if imageExists then Except.ok container
      else Except.error "Failed to build image" }

end GenericContainerBuilder

/-! ## Container creation (`docker/functions/container/create-container.ts`) -/

/-- `HealthCheck` from `types.ts`: the `test` command plus optional durations
(milliseconds) and retry count.  Optional numeric fields are `Option Nat`;
the source guards each with JavaScript truthiness, under which both `undefined`
and `0` are falsy. -/
structure HealthCheck where
  test : String
  interval : Option Nat
  timeout : Option Nat
  retries : Option Nat
  startPeriod : Option Nat
deriving DecidableEq, Repr

/-- `BindMount` from `types.ts`. -/
structure BindMount where
  source : String
  target : String
  bindMode : String
deriving DecidableEq, Repr

/-- `ExtraHost` from `types.ts`. -/
structure ExtraHost where
  host : String
  ipAddress : String
deriving DecidableEq, Repr

/-- `CreateContainerOptions` of `create-container.ts` (lines 9–25). -/
structure CreateContainerOptions where
  imageName : String
  env : List (String × String)
  cmd : List String
  bindMounts : List BindMount
  tmpFs : List (String × String)
  exposedPorts : List Nat
  name : Option String
  networkMode : Option String
  healthCheck : Option HealthCheck
  useDefaultLogDriver : Bool
  privilegedMode : Bool
  autoRemove : Bool
  extraHosts : List ExtraHost
  ipcMode : Option String
  user : Option String
deriving DecidableEq, Repr

namespace DockerV1

/-- Modelled from the spec: `createLabels(dockerImageName)` of
`create-labels.ts`, imported by `create-container.ts` but not among the source
files.  Per §3 a `ResourceLabels` set "always includes: a library marker, the
session identifier"; the process-wide session id (§4.1) enters as an explicit
argument.  The image name is the argument the call site passes. -/
def createLabels (sessionId : String) (imageName : String) : Labels :=
  [(LABEL_TESTCONTAINERS, "true"), (LABEL_TESTCONTAINERS_SESSION_ID, sessionId)]

/-- `getEnv` (lines 61–65): each binding rendered as a `key=value` string, in
order. -/
def getEnv (env : List (String × String)) : List String :=
  env.foldl (fun dockerodeEnvironment kv =>
    dockerodeEnvironment ++ [kv.1 ++ "=" ++ kv.2]) []

/-- `getExposedPorts` (lines 69–75): the object whose keys are the string
renderings of the declared ports, each mapped to the empty object. -/
def getExposedPorts (exposedPorts : List Nat) : List (String × Unit) :=
  exposedPorts.map (fun exposedPort => (toString exposedPort, ()))

/-- `getExtraHosts` (lines 77–79): `host:ipAddress` strings. -/
def getExtraHosts (extraHosts : List ExtraHost) : List String :=
  extraHosts.map (fun extraHost => extraHost.host ++ ":" ++ extraHost.ipAddress)

/-- One entry of a dockerode port-binding list: `\x7b HostPort: "0" \x7d`. -/
structure PortBinding where
  HostPort : String
deriving DecidableEq, Repr

/-- `getPortBindings` (lines 81–87): every declared port mapped (under its
string key, as JavaScript coerces the numeric index) to the one-element
binding list requesting host port `"0"`. -/
def getPortBindings (exposedPorts : List Nat) : List (String × List PortBinding) :=
  exposedPorts.map (fun exposedPort => (toString exposedPort, [⟨"0"⟩]))

/-- `getBindMounts` (lines 89–91): `source:target:bindMode` strings. -/
def getBindMounts (bindMounts : List BindMount) : List String :=
  bindMounts.map (fun bm => bm.source ++ ":" ++ bm.target ++ ":" ++ bm.bindMode)

/-- `DockerodeHealthCheck` (lines 93–99). -/
structure DockerodeHealthCheck where
  Test : List String
  Interval : Nat
  Timeout : Nat
  Retries : Nat
  StartPeriod : Nat
deriving DecidableEq, Repr

/-- `toNanos` (line 115): milliseconds to nanoseconds by multiplication with
`1e6`. -/
def toNanos (duration : Nat) : Nat := duration * 1000000

/-- JavaScript truthiness of an optional number: `undefined` and `0` are
falsy. -/
def truthy (n : Option Nat) : Bool :=
  match n with
  | none => false
  | some v => v ≠ 0

/-- `getHealthCheck` (lines 101–113): `undefined` stays `undefined`; otherwise
`Test = ["CMD-SHELL", test]`, each duration converted with `toNanos` when
truthy and `0` otherwise, and `retries || 0`. -/
def getHealthCheck (healthCheck : Option HealthCheck) : Option DockerodeHealthCheck :=
  match healthCheck with
  | none => none
  | some hc =>
    some
      { Test := ["CMD-SHELL", hc.test]
        Interval := if truthy hc.interval then toNanos (hc.interval.getD 0) else 0
        Timeout := if truthy hc.timeout then toNanos (hc.timeout.getD 0) else 0
        Retries := hc.retries.getD 0
        StartPeriod := if truthy hc.startPeriod then toNanos (hc.startPeriod.getD 0) else 0 }

/-- `DockerodeLogConfig` (lines 117–120). -/
structure DockerodeLogConfig where
  «Type» : String
  Config : List (String × String)
deriving DecidableEq, Repr

/-- `getLogConfig` (lines 122–131). -/
def getLogConfig (useDefaultLogDriver : Bool) : Option DockerodeLogConfig :=
  if !useDefaultLogDriver then none
  else some { «Type» := "json-file", Config := [] }

/-- The `HostConfig` object of the creation request (lines 41–51). -/
structure HostConfig where
  IpcMode : Option String
  ExtraHosts : List String
  AutoRemove : Bool
  NetworkMode : Option String
  PortBindings : List (String × List PortBinding)
  Binds : List String
  Tmpfs : List (String × String)
  LogConfig : Option DockerodeLogConfig
  Privileged : Bool
deriving DecidableEq, Repr

/-- The full object handed to `dockerode.createContainer` (lines 31–52). -/
structure CreateRequest where
  name : Option String
  User : Option String
  Image : String
  Env : List String
  ExposedPorts : List (String × Unit)
  Cmd : List String
  Labels : Labels
  Healthcheck : Option DockerodeHealthCheck
  HostConfig : HostConfig
deriving DecidableEq, Repr

/-- Embedding of `createContainer` (lines 27–57): the request object it
builds and sends to the engine.  The surrounding `try`/`catch` only logs and
rethrows, and the engine call itself is outside the embedding; the
process-wide session id consumed by `createLabels` enters as an argument. -/
def createContainer (sessionId : String) (options : CreateContainerOptions) :
    CreateRequest :=
  { name := options.name
    User := options.user
    Image := options.imageName
    Env := getEnv options.env
    ExposedPorts := getExposedPorts options.exposedPorts
    Cmd := options.cmd
    Labels := createLabels sessionId options.imageName
    Healthcheck := getHealthCheck options.healthCheck
    HostConfig :=
      { IpcMode := options.ipcMode
        ExtraHosts := getExtraHosts options.extraHosts
        AutoRemove := options.autoRemove
        NetworkMode := options.networkMode
        PortBindings := getPortBindings options.exposedPorts
        Binds := getBindMounts options.bindMounts
        Tmpfs := options.tmpFs
        LogConfig := getLogConfig options.useDefaultLogDriver
        Privileged := options.privilegedMode } }

end DockerV1

/-! ## Reaper (modelled from the spec, §4.2/§8) -/

/-- A resource known to the container engine: an identifier plus its label
set. -/
structure ReaperResource where
  id : Nat
  labels : Labels
deriving DecidableEq, Repr

/-- Whether a resource carries the session label for `sessionId`. -/
def hasSessionLabel (sessionId : String) (r : ReaperResource) : Bool :=
  r.labels.lookup LABEL_TESTCONTAINERS_SESSION_ID == some sessionId

/-- Modelled from the spec: the Reaper daemon's per-connection state (§4.2,
not among the source files) — the filter expression registered over the
connection, "label X equals session Y", held until the connection closes. -/
structure ReaperConnection where
  filter : Option String
deriving DecidableEq, Repr

/-- Modelled from the spec: `registerForCleanup` (§4.2 client-side algorithm,
step 2) — the filter for the current session is sent exactly once and, after
acknowledgement, held by the daemon for the life of the connection. -/
def registerForCleanup (conn : ReaperConnection) (sessionId : String) :
    ReaperConnection :=
  { conn with filter := some sessionId }

/-- Modelled from the spec: the daemon's reaction to connection closure (§4.2
daemon contract, point 2) — it queries the engine for every resource matching
the registered filter and attempts removal of each match; the result is the
list of resources whose removal is attempted.  With no registered filter
nothing is touched. -/
def onConnectionClose (conn : ReaperConnection)
    (engineResources : List ReaperResource) : List ReaperResource :=
  match conn.filter with
  | none => []
  | some sessionId => engineResources.filter (hasSessionLabel sessionId)

/-! ## Wait-strategy engine (modelled from the spec, §4.3) -/

/-- The three-way classification every strategy's probe must produce (§4.3 and
design note: "ready / not-yet / permanent-failure"). -/
inductive ProbeResult where
  | ready
  | notYetReady
  | permanentlyFailed
deriving DecidableEq, Repr

/-- Result of `waitUntilReady`, each carrying the elapsed time at return and
the number of sleeps executed. -/
inductive WaitResult where
  | success (elapsed sleeps : Nat)
  | permanentFailure (elapsed sleeps : Nat)
  | waitTimeout (elapsed sleeps : Nat)
deriving DecidableEq, Repr

/-- Modelled from the spec: the shared poll loop of §4.3 at time `t` (ms since
the call; the deadline is absolute, `deadline = startupTimeout` from start
time `0`).  Evaluate the probe; on ready return success immediately, on
permanent failure return failure immediately; otherwise sleep `interval` and
retry, unless the deadline has passed, in which case return the timeout
failure.  The probe is the strategy-specific classification as a function of
the time it is evaluated at; probes themselves take no time. -/
def waitLoop (probe : Nat → ProbeResult) (interval deadline t sleeps : Nat) :
    WaitResult :=
  match probe t with
  | ProbeResult.ready => WaitResult.success t sleeps
  | ProbeResult.permanentlyFailed => WaitResult.permanentFailure t sleeps
  | ProbeResult.notYetReady =>
    if h : t < deadline ∧ 0 < interval then
      waitLoop probe interval deadline (t + interval) (sleeps + 1)
    else
      WaitResult.waitTimeout t sleeps
termination_by deadline - t
decreasing_by omega

/-- Modelled from the spec: `waitUntilReady(target, strategy, startupTimeout)`
(§4.3) — run the shared poll loop from time `0` with the strategy's probe,
poll interval and absolute deadline `startupTimeout`. -/
def waitUntilReady (probe : Nat → ProbeResult) (interval startupTimeout : Nat) :
    WaitResult :=
  waitLoop probe interval startupTimeout 0 0

/-- Outcome of one HTTP probe: a response with its status code, or a
connection error. -/
inductive HttpProbeOutcome where
  | response (status : Nat)
  | connectionError
deriving DecidableEq, Repr

/-- Modelled from the spec: the HTTP strategy's default status predicate
(§4.3) — "any 2xx–3xx". -/
def defaultStatusPredicate (status : Nat) : Bool :=
  200 ≤ status && status ≤ 399

/-- Modelled from the spec: classification of one HTTP probe outcome under
the default predicate (§4.3) — ready when the status matches, a non-matching
status is "not yet ready" by default, and connection errors are "not yet
ready". -/
def httpClassify (outcome : HttpProbeOutcome) : ProbeResult :=
  match outcome with
  | HttpProbeOutcome.response status =>
    if defaultStatusPredicate status then ProbeResult.ready
    else ProbeResult.notYetReady
  | HttpProbeOutcome.connectionError => ProbeResult.notYetReady

/-! ## Theorems -/

/-- Helper: a poll loop whose probe is never ready and never permanently
failed returns `waitTimeout`, at a time at least the deadline and less than
one interval past it, from any start time below `deadline + interval`. -/
theorem waitLoop_timeout_aux (probe : Nat → ProbeResult)
    (hp : ∀ t, probe t = ProbeResult.notYetReady)
    (interval deadline : Nat) (hi : 0 < interval) :
    ∀ n t sleeps, deadline - t ≤ n → t < deadline + interval →
      ∃ elapsed s, waitLoop probe interval deadline t sleeps
          = WaitResult.waitTimeout elapsed s
        ∧ deadline ≤ elapsed ∧ elapsed < deadline + interval := by
  intro n
  induction n with
  | zero =>
    intro t sleeps hn ht
    rw [waitLoop, hp t]
    have hd : ¬ (t < deadline ∧ 0 < interval) := by omega
    rw [dif_neg hd]
    exact ⟨t, sleeps, rfl, by omega, ht⟩
  | succ n ih =>
    intro t sleeps hn ht
    rw [waitLoop, hp t]
    by_cases hlt : t < deadline
    · rw [dif_pos ⟨hlt, hi⟩]
      exact ih (t + interval) (sleeps + 1) (by omega) (by omega)
    · rw [dif_neg (by omega)]
      exact ⟨t, sleeps, rfl, by omega, ht⟩

/-- C3: for every strategy probe that never reports ready and never reports
permanent failure, `waitUntilReady` terminates with a `WaitTimeout`, at an
elapsed time no earlier than `startupTimeout` and less than one poll interval
past it. -/
theorem waitUntilReady_timeout (probe : Nat → ProbeResult)
    (interval startupTimeout : Nat)
    (hp : ∀ t, probe t = ProbeResult.notYetReady) (hi : 0 < interval) :
    ∃ elapsed sleeps,
      waitUntilReady probe interval startupTimeout
          = WaitResult.waitTimeout elapsed sleeps
        ∧ startupTimeout ≤ elapsed ∧ elapsed < startupTimeout + interval := by
  obtain ⟨e, s, heq, h1, h2⟩ :=
    waitLoop_timeout_aux probe hp interval startupTimeout hi
      startupTimeout 0 0 (by omega) (by omega)
  exact ⟨e, s, heq, h1, h2⟩

/-- Witness for C3 at a never-ready probe, a 250 ms interval and a 2000 ms
deadline. -/
theorem waitUntilReady_timeout_witness :
    (∀ t : Nat, (fun _ : Nat => ProbeResult.notYetReady) t
        = ProbeResult.notYetReady)
    ∧ 0 < 250
    ∧ ∃ elapsed sleeps,
        waitUntilReady (fun _ => ProbeResult.notYetReady) 250 2000
            = WaitResult.waitTimeout elapsed sleeps
          ∧ 2000 ≤ elapsed ∧ elapsed < 2250 :=
  ⟨fun _ => rfl, by decide,
    waitUntilReady_timeout (fun _ => ProbeResult.notYetReady) 250 2000
      (fun _ => rfl) (by decide)⟩

/-- C4: for every strategy probe and target, if the probe reports ready on
the very first evaluation, `waitUntilReady` returns success at elapsed time 0
having executed no sleep. -/
theorem waitUntilReady_ready_first_poll (probe : Nat → ProbeResult)
    (interval startupTimeout : Nat) (hp : probe 0 = ProbeResult.ready) :
    waitUntilReady probe interval startupTimeout = WaitResult.success 0 0 := by
  rw [waitUntilReady, waitLoop, hp]

/-- Witness for C4 at an always-ready probe. -/
theorem waitUntilReady_ready_first_poll_witness :
    (fun _ : Nat => ProbeResult.ready) 0 = ProbeResult.ready
    ∧ waitUntilReady (fun _ => ProbeResult.ready) 250 2000
        = WaitResult.success 0 0 :=
  ⟨rfl, waitUntilReady_ready_first_poll (fun _ => ProbeResult.ready) 250 2000 rfl⟩

/-- C5: under the HTTP strategy's default predicate, status 200 classifies as
ready, status 500 and connection errors classify as "not yet ready", no probe
outcome ever classifies as permanent failure, and a probe that keeps
answering 500 polls until the deadline and times out. -/
theorem httpClassify_default_predicate :
    httpClassify (HttpProbeOutcome.response 200) = ProbeResult.ready
    ∧ httpClassify (HttpProbeOutcome.response 500) = ProbeResult.notYetReady
    ∧ httpClassify HttpProbeOutcome.connectionError = ProbeResult.notYetReady
    ∧ (∀ o : HttpProbeOutcome, httpClassify o ≠ ProbeResult.permanentlyFailed)
    ∧ ∃ elapsed sleeps,
        waitUntilReady (fun _ => httpClassify (HttpProbeOutcome.response 500))
            250 2000
          = WaitResult.waitTimeout elapsed sleeps ∧ 2000 ≤ elapsed := by
  refine ⟨rfl, rfl, rfl, ?_, ?_⟩
  · intro o
    cases o with
    | response status =>
      simp only [httpClassify]
      split <;> simp
    | connectionError => simp [httpClassify]
  · obtain ⟨e, s, heq, h1, _⟩ :=
      waitLoop_timeout_aux (fun _ => httpClassify (HttpProbeOutcome.response 500))
        (fun _ => rfl) 250 2000 (by decide) 2000 0 0 (by omega) (by omega)
    exact ⟨e, s, heq, h1⟩

/-- C2: once `registerForCleanup` has registered a session's filter, closing
the Reaper connection attempts removal of exactly the engine resources that
carry that session's label: a resource is in the removal list iff it exists
and carries the label, so unlabeled resources and resources of other sessions
are never touched. -/
theorem reaper_removes_exactly_session (conn : ReaperConnection)
    (sessionId : String) (resources : List ReaperResource) (r : ReaperResource) :
    r ∈ onConnectionClose (registerForCleanup conn sessionId) resources
      ↔ r ∈ resources ∧ hasSessionLabel sessionId r = true := by
  simp [onConnectionClose, registerForCleanup, List.mem_filter]

/-- C1: the label set `GenericContainerBuilder.build` hands to the image
build carries the session-id key exactly when `deleteOnExit` is set — mapped
to the reaper's session id when it is, absent when the caller opts out. -/
theorem build_session_label_iff_deleteOnExit (sessionId imageName : String)
    (deleteOnExit imageExists : Bool) :
    (GenericContainerBuilder.build sessionId deleteOnExit imageExists
        imageName).labelsSent.lookup LABEL_TESTCONTAINERS_SESSION_ID
      = if deleteOnExit then some sessionId else none := by
  cases deleteOnExit <;> rfl

/-- C6: `buildLabels` is deterministic — the same session id and extra labels
give equal label sets — and for every caller-supplied `extra` the two
reserved keys always resolve to the library marker and the session id. -/
theorem buildLabels_deterministic_reserved (sessionId : String) (extra : Labels) :
    buildLabels sessionId extra = buildLabels sessionId extra
    ∧ (buildLabels sessionId extra).lookup LABEL_TESTCONTAINERS = some "true"
    ∧ (buildLabels sessionId extra).lookup LABEL_TESTCONTAINERS_SESSION_ID
        = some sessionId :=
  ⟨rfl, rfl, rfl⟩

/-- C7: every container created through `createContainer` carries the
provenance label set `createLabels` applied to its image name in the creation
request — there is no path that builds the request without them. -/
theorem createContainer_stamps_labels (sessionId : String)
    (options : CreateContainerOptions) :
    (DockerV1.createContainer sessionId options).Labels
      = DockerV1.createLabels sessionId options.imageName := rfl

/-- C9: `GenericContainerBuilder.build` returns the `GenericContainer` handle
iff the runtime reports the built image as existing, and throws
"Failed to build image" iff it does not. -/
theorem build_checks_image_exists (sessionId imageName : String)
    (deleteOnExit imageExists : Bool) :
    ((GenericContainerBuilder.build sessionId deleteOnExit imageExists
          imageName).result = Except.ok (GenericContainer.mk imageName)
        ↔ imageExists = true)
    ∧ ((GenericContainerBuilder.build sessionId deleteOnExit imageExists
          imageName).result = Except.error "Failed to build image"
        ↔ imageExists = false) := by
  cases imageExists <;> simp [GenericContainerBuilder.build]

/-- Helper: a key is present in `getExposedPorts ps` exactly when it renders
one of the declared ports. -/
theorem lookup_getExposedPorts (ps : List Nat) (k : String) :
    ((DockerV1.getExposedPorts ps).lookup k).isSome
      = (ps.map toString).contains k := by
  induction ps with
  | nil => rfl
  | cons p ps ih =>
    simp only [DockerV1.getExposedPorts, List.map_cons, List.lookup,
      List.contains_cons] at *
    cases h : k == toString p with
    | true => simp [h]
    | false => simp [h, ih]

/-- Helper: looking a key up in `getPortBindings ps` yields the `HostPort "0"`
request exactly when the key renders a declared port, and nothing otherwise. -/
theorem lookup_getPortBindings (ps : List Nat) (k : String) :
    (DockerV1.getPortBindings ps).lookup k
      = if (ps.map toString).contains k
        then some [DockerV1.PortBinding.mk "0"] else none := by
  induction ps with
  | nil => rfl
  | cons p ps ih =>
    simp only [DockerV1.getPortBindings, List.map_cons, List.lookup,
      List.contains_cons] at *
    cases h : k == toString p with
    | true => simp [h]
    | false => simp [h, ih]

/-- C8: the creation request declares exactly the caller's exposed ports —
a key is in `ExposedPorts` iff it renders a declared port — and for each of
them requests the dynamic binding `HostPort "0"` in `PortBindings`, with no
binding for any other key. -/
theorem createContainer_exposes_declared_ports (sessionId : String)
    (options : CreateContainerOptions) (k : String) :
    (((DockerV1.createContainer sessionId options).ExposedPorts.lookup k).isSome
        = (options.exposedPorts.map toString).contains k)
    ∧ ((DockerV1.createContainer sessionId options).HostConfig.PortBindings.lookup k
        = if (options.exposedPorts.map toString).contains k
          then some [DockerV1.PortBinding.mk "0"] else none) :=
  ⟨lookup_getExposedPorts options.exposedPorts k,
    lookup_getPortBindings options.exposedPorts k⟩

/-- C10: `getHealthCheck` sends nothing when no health check is configured;
otherwise the command is `["CMD-SHELL", test]`, each duration is its
millisecond value times `1e6` nanoseconds (absent and zero both ending as 0),
and absent retries are sent as 0. -/
theorem getHealthCheck_conversion :
    DockerV1.getHealthCheck none = none
    ∧ ∀ hc : HealthCheck, ∃ d : DockerV1.DockerodeHealthCheck,
        DockerV1.getHealthCheck (some hc) = some d
        ∧ d.Test = ["CMD-SHELL", hc.test]
        ∧ d.Interval = hc.interval.getD 0 * 1000000
        ∧ d.Timeout = hc.timeout.getD 0 * 1000000
        ∧ d.StartPeriod = hc.startPeriod.getD 0 * 1000000
        ∧ d.Retries = hc.retries.getD 0 := by
  refine ⟨rfl, fun hc => ⟨_, rfl, rfl, ?_, ?_, ?_, rfl⟩⟩
  · cases h : hc.interval with
    | none => simp [DockerV1.truthy, h]
    | some v =>
      by_cases hv : v = 0
      · subst hv
        simp [DockerV1.truthy, DockerV1.toNanos]
      · simp [DockerV1.truthy, DockerV1.toNanos, hv]
  · cases h : hc.timeout with
    | none => simp [DockerV1.truthy, h]
    | some v =>
      by_cases hv : v = 0
      · subst hv
        simp [DockerV1.truthy, DockerV1.toNanos]
      · simp [DockerV1.truthy, DockerV1.toNanos, hv]
  · cases h : hc.startPeriod with
    | none => simp [DockerV1.truthy, h]
    | some v =>
      by_cases hv : v = 0
      · subst hv
        simp [DockerV1.truthy, DockerV1.toNanos]
      · simp [DockerV1.truthy, DockerV1.toNanos, hv]
